import Mathlib

/-!
Verification of the `chatdb` package (chatdb.go): a shallow embedding of its
data model and of the four operations `GetHandleMap`, `GetChats`,
`GetMessageIDs` and `GetMessage`, together with the helper
`getDatetimeFormula` and the constructor `NewChatDB`.

Modelling conventions:
* The SQLite store is modelled by explicit row lists, one list per table
  (`handle`, `chat`, `chat_message_join`, `message`).  A `SELECT ... WHERE`
  query is the corresponding `List.filter`; the rows come back in the order
  the list holds them, matching the cursor order of the store.
* A Go function returning `(T, error)` becomes `Except DBError T`; Go
  returns the zero value of `T` (`nil` map, `""` string) alongside a
  non-nil error, which the `Except.error` case captures.
* Storage-layer failures (a failing `Query` call, a `Scan` decode failure on
  a well-formed row) cannot arise over pure row lists and are therefore not
  reachable in the embedding; the corresponding `errors.Wrap` sites are noted
  in comments.  The one `Scan` failure that is data-dependent — calling
  `Scan` after `Next` returned `false` because the result set was empty
  (database/sql then reports the closed cursor) — is reachable and is
  modelled in `GetMessage`.
* `semver.Version` is modelled by its numeric triple (major, minor, patch);
  the callers in scope never supply prerelease or metadata parts, for which
  the numeric comparison coincides with the full semver order.
* SQLite's `DATETIME(...)` rendering is an external function of the selected
  formula and the stored integer; `GetMessage` takes it as an explicit
  argument `datetime`.
-/

namespace Chatdb

/-- `semver.Version` restricted to its numeric triple. -/
structure Version where
  major : Nat
  minor : Nat
  patch : Nat
deriving DecidableEq, Repr

/-- `semver`'s `Version.LessThan`: compare major, then minor, then patch
(prerelease parts are absent in this model). -/
def Version.lessThan (a b : Version) : Bool :=
  if a.major ≠ b.major then decide (a.major < b.major)
  else if a.minor ≠ b.minor then decide (a.minor < b.minor)
  else decide (a.patch < b.patch)

/-- `_modernVersion = semver.MustParse("10.13")`. -/
def _modernVersion : Version := ⟨10, 13, 0⟩

/-- `_datetimeFormulaLegacy` (chatdb.go line 25). -/
def _datetimeFormulaLegacy : String :=
  "date + STRFTIME('%s', '2001-01-01 00:00:00'), 'unixepoch', 'localtime'"

/-- `_datetimeFormula` (chatdb.go line 26). -/
def _datetimeFormula : String :=
  "(date/1000000000) + STRFTIME('%s', '2001-01-01 00:00:00'), 'unixepoch', 'localtime'"

/-- `vcard.Name`: only the `GivenName` field is read by chatdb.go. -/
structure VName where
  givenName : String
deriving DecidableEq, Repr

/-- `vcard.Card` as chatdb.go consumes it: `Card.Name()` returns `nil` when the
card has no name field (the `Option`), and
`Card.PreferredValue(vcard.FieldFormattedName)` returns `""` when the card has
no formatted-name field (so `formattedName = ""` models absence). -/
structure Card where
  name : Option VName
  formattedName : String
deriving DecidableEq, Repr

/-- A Go `map[string]*vcard.Card` (the contact map), as an association list
with distinct keys; `lookupCard` below is map indexing. -/
abbrev ContactMap := List (String × Card)

/-- Go map indexing `contactMap[handle]`: the value and the `ok` flag are the
`Option`. -/
def lookupCard : ContactMap → String → Option Card
  | [], _ => none
  | (k, c) :: rest, s => if k = s then some c else lookupCard rest s

/-- Go map indexing for the handle map `map[int]string` built by
`GetHandleMap`. -/
def lookupHandle : List (Int × String) → Int → Option String
  | [], _ => none
  | (k, v) :: rest, i => if k = i then some v else lookupHandle rest i

/-- The error values chatdb.go produces, by construction site.  Go pairs each
with the zero value of the result (`nil` map, `""` string), which the
`Except.error` case carries implicitly. -/
inductive DBError where
  /-- `errors.Wrap(f)` of a failing `Query` call; `context` is the wrap
  message.  Not reachable over pure row lists. -/
  | queryError (context : String)
  /-- `errors.Wrap(f)` of a failing `Scan`, annotated with the record
  involved.  In `GetMessage` this fires when `Scan` runs after `Next`
  returned `false` on an empty result set (the cursor is closed);
  `messageID` is the identifier in the wrap message
  "read data for message ID %d". -/
  | readError (messageID : Int)
  /-- "multiple handles with the same ID: %d ..." (chatdb.go line 87). -/
  | duplicateHandleError (handleID : Int)
  /-- "multiple messages with the same ID: %d ..." (chatdb.go line 161). -/
  | duplicateMessageError (messageID : Int)
  /-- The spec's §7 taxonomy names a NotFoundError for a message identifier
  with zero matching rows; chatdb.go has no construction site for it.  The
  constructor exists so that statements about that taxonomy can be made. -/
  | notFoundError (messageID : Int)
deriving DecidableEq, Repr

/-- A row of the `handle` table as projected by
`SELECT ROWID, id FROM handle`: `rowid` is the integer handle identifier,
`id` the raw address (phone number or email). -/
structure HandleRow where
  rowid : Int
  id : String
deriving DecidableEq, Repr

/-- A row of the `chat` table as projected by
`SELECT ROWID, guid, chat_identifier, COALESCE(display_name, '') FROM chat`;
`display_name` is nullable in the store, which the `Option` records, and the
`COALESCE` applies `Option.getD ""` at the projection. -/
structure ChatRow where
  rowid : Int
  guid : String
  chat_identifier : String
  display_name : Option String
deriving DecidableEq, Repr

/-- A row of the `chat_message_join` table. -/
structure JoinRow where
  chat_id : Int
  message_id : Int
deriving DecidableEq, Repr

/-- A row of the `message` table with the columns `GetMessage` projects:
`is_from_me`, `handle_id`, nullable `text` (the query applies
`COALESCE(text, '')`), and the raw stored `date` integer that the
`DATETIME(...)` formula decodes. -/
structure MessageRow where
  rowid : Int
  is_from_me : Int
  handle_id : Int
  text : Option String
  date : Int
deriving DecidableEq, Repr

/-- `Chat` (chatdb.go lines 32-36). -/
structure Chat where
  ID : Int
  GUID : String
  DisplayName : String
deriving DecidableEq, Repr

/-- The `chatDB` struct (chatdb.go lines 58-62) without the `*sql.DB` handle
(the store is passed as row lists to each operation).  Neither field is ever
written after construction: chatdb.go assigns `datetimeFormula` nowhere and
`selfHandle` only in `NewChatDB`. -/
structure chatDB where
  datetimeFormula : String
  selfHandle : String
deriving DecidableEq, Repr

/-- `NewChatDB` (chatdb.go lines 66-71): `datetimeFormula` is left at the Go
zero value `""`. -/
def NewChatDB (selfHandle : String) : chatDB :=
  { datetimeFormula := "", selfHandle := selfHandle }

/-- `getDatetimeFormula` (chatdb.go lines 170-178). -/
def getDatetimeFormula (d : chatDB) (macOSVersion : Option Version) : String :=
  if d.datetimeFormula ≠ "" then d.datetimeFormula
  else
    match macOSVersion with
    | some v => if v.lessThan _modernVersion then _datetimeFormulaLegacy else _datetimeFormula
    | none => _datetimeFormula

/-- The per-row body of `GetHandleMap`'s loop (chatdb.go lines 89-94): start
from the raw address, and substitute the contact's given name when a card
matches, its `Name()` is non-nil and the given name is non-empty. -/
def resolveHandle (contactMap : ContactMap) (handle : String) : String :=
  match lookupCard contactMap handle with
  | some card =>
    match card.name with
    | some n => if n.givenName ≠ "" then n.givenName else handle
    | none => handle
  | none => handle

/-- The cursor loop of `GetHandleMap` (chatdb.go lines 80-96), with the rows
still to be drained and the map built so far (as an insertion-ordered
association list). -/
def getHandleMapLoop (contactMap : ContactMap) :
    List HandleRow → List (Int × String) → Except DBError (List (Int × String))
  | [], handleMap => .ok handleMap
  | row :: rest, handleMap =>
    if (lookupHandle handleMap row.rowid).isSome then
      .error (.duplicateHandleError row.rowid)
    else
      getHandleMapLoop contactMap rest (handleMap ++ [(row.rowid, resolveHandle contactMap row.id)])

/-- `GetHandleMap` (chatdb.go lines 73-98) over the `handle` table's rows.
The `errors.Wrap` sites for a failing `Query` ("get handles from DB") and a
failing `Scan` ("read handle") are storage-level and unreachable here. -/
def GetHandleMap (handleRows : List HandleRow) (contactMap : ContactMap) :
    Except DBError (List (Int × String)) :=
  getHandleMapLoop contactMap handleRows []

/-- The per-row body of `GetChats`'s loop (chatdb.go lines 110-126). -/
def resolveChat (contactMap : ContactMap) (row : ChatRow) : Chat :=
  let displayName := row.display_name.getD ""
  let displayName := if displayName = "" then row.chat_identifier else displayName
  let displayName :=
    match lookupCard contactMap displayName with
    | some card => if card.formattedName ≠ "" then card.formattedName else displayName
    | none => displayName
  { ID := row.rowid, GUID := row.guid, DisplayName := displayName }

/-- The cursor loop of `GetChats` (chatdb.go lines 107-127), appending one
`Chat` per row to the accumulator. -/
def getChatsLoop (contactMap : ContactMap) : List ChatRow → List Chat → List Chat
  | [], chats => chats
  | row :: rest, chats => getChatsLoop contactMap rest (chats ++ [resolveChat contactMap row])

/-- `GetChats` (chatdb.go lines 100-129).  The Go error paths ("query chats
table", "read chat") are storage-level and unreachable over pure rows, so the
result is always `Except.ok`. -/
def GetChats (chatRows : List ChatRow) (contactMap : ContactMap) : Except DBError (List Chat) :=
  .ok (getChatsLoop contactMap chatRows [])

/-- The cursor loop of `GetMessageIDs` (chatdb.go lines 138-144). -/
def getMessageIDsLoop : List JoinRow → List Int → List Int
  | [], messageIDs => messageIDs
  | row :: rest, messageIDs => getMessageIDsLoop rest (messageIDs ++ [row.message_id])

/-- `GetMessageIDs` (chatdb.go lines 131-146): the query
`SELECT message_id FROM chat_message_join WHERE chat_id=%d` filters the join
table in its own order (no ORDER BY).  The Go error paths ("query
chat_message_join table for chat ID %d", "read message ID for chat ID %d")
are storage-level and unreachable over pure rows. -/
def GetMessageIDs (joinRows : List JoinRow) (chatID : Int) : Except DBError (List Int) :=
  .ok (getMessageIDsLoop (joinRows.filter (fun r => r.chat_id == chatID)) [])

/-- `GetMessage` (chatdb.go lines 148-168).  `msgRows` is the `message`
table; the query filters it by `WHERE ROWID=%d` with the `DATETIME` column
computed from `getDatetimeFormula`; `datetime` is SQLite's external
`DATETIME` rendering, a function of the selected formula and the stored
integer.  The Go body runs `messages.Next()` once, then `Scan` — which fails
on a closed cursor when there was no row (`readError`) — then checks a second
`Next()` and fails with the duplicate-message error when it succeeds.  On
success it renders `"[%s] %s: %s\n"` from the date, the speaker (the
`handleMap` value for `handle_id`, defaulting to `""`, overridden by
`selfHandle` when `is_from_me == 1`) and the coalesced text. -/
def GetMessage (d : chatDB) (msgRows : List MessageRow) (datetime : String → Int → String)
    (messageID : Int) (handleMap : List (Int × String)) (macOSVersion : Option Version) :
    Except DBError String :=
  let formula := getDatetimeFormula d macOSVersion
  match msgRows.filter (fun r => r.rowid == messageID) with
  | [] => .error (.readError messageID)
  | row :: rest =>
    match rest with
    | _ :: _ => .error (.duplicateMessageError messageID)
    | [] =>
      let text := row.text.getD ""
      let date := datetime formula row.date
      let handle := (lookupHandle handleMap row.handle_id).getD ""
      let handle := if row.is_from_me == 1 then d.selfHandle else handle
      .ok ("[" ++ date ++ "] " ++ handle ++ ": " ++ text ++ "\n")

/-! ### Spec-side definitions

These follow the spec's wording, to be compared with the definitions above,
which follow the source. -/

/-- The spec's "strictly below" comparison of a version marker against the
fixed modern-schema threshold, read lexicographically on the numeric
triple. -/
def VersionBelow (a b : Version) : Prop :=
  a.major < b.major ∨
    (a.major = b.major ∧ (a.minor < b.minor ∨ (a.minor = b.minor ∧ a.patch < b.patch)))

instance (a b : Version) : Decidable (VersionBelow a b) := by
  unfold VersionBelow
  infer_instance

/-- The timestamp-formula selection rule in the spec's words: the override
formula when one is set (non-empty); otherwise the legacy formula when a
version marker is supplied and lies strictly below 10.13; otherwise the
modern formula. -/
def specFormulaSelection (override : String) (macOSVersion : Option Version) : String :=
  if override ≠ "" then override
  else
    match macOSVersion with
    | some v => if VersionBelow v _modernVersion then _datetimeFormulaLegacy else _datetimeFormula
    | none => _datetimeFormula

/-- The spec's handle display rule: the contact's given name when a Contact
Entry exists for the address and its given name is non-empty; otherwise the
raw address verbatim.  A card without a name field exposes an empty given
name. -/
def specHandleDisplay (cmap : ContactMap) (address : String) : String :=
  let given :=
    match lookupCard cmap address with
    | some card => (card.name.map VName.givenName).getD ""
    | none => ""
  if given ≠ "" then given else address

/-- The spec's chat display-name precedence: the explicit display-name field
if non-empty, else the conversation identifier; then a matching contact's
preferred formatted name overrides the resolved name when non-empty. -/
def specChatDisplayName (cmap : ContactMap) (displayNameField : String) (identifier : String) :
    String :=
  let resolved := if displayNameField ≠ "" then displayNameField else identifier
  match lookupCard cmap resolved with
  | some card => if card.formattedName ≠ "" then card.formattedName else resolved
  | none => resolved

/-! ### Helper lemmas -/

theorem lessThan_eq_true_iff (a b : Version) : a.lessThan b = true ↔ VersionBelow a b := by
  unfold Version.lessThan VersionBelow
  by_cases h1 : a.major = b.major <;> by_cases h2 : a.minor = b.minor <;>
    simp [h1, h2]

/-! ### The claims -/

/-- C2: for every pair (override formula, optional version marker), the
timestamp formula selection returns the override when one is set; otherwise
the legacy formula when a version marker is supplied and is strictly below
10.13; otherwise the modern formula. -/
theorem getDatetimeFormula_selection (d : chatDB) (v : Option Version) :
    getDatetimeFormula d v = specFormulaSelection d.datetimeFormula v := by
  unfold getDatetimeFormula specFormulaSelection
  cases v with
  | none => rfl
  | some ver =>
    by_cases h : VersionBelow ver _modernVersion
    · simp [h, (lessThan_eq_true_iff ver _modernVersion).2 h]
    · have hb : ver.lessThan _modernVersion = false := by
        rw [← Bool.not_eq_true, lessThan_eq_true_iff]
        exact h
      simp [h, hb]

/-- C10: a `chatDB` built by `NewChatDB` has an empty `datetimeFormula`
override (and no operation writes the field: the source never assigns it
after construction, so the embedding's state is immutable), hence the formula
`GetMessage` selects through `getDatetimeFormula` is determined by the
version marker alone — always the legacy or the modern formula, never an
override, and independent of the only other constructor argument. -/
theorem newChatDB_no_override (self : String) (v : Option Version) :
    (NewChatDB self).datetimeFormula = "" ∧
    (getDatetimeFormula (NewChatDB self) v = _datetimeFormulaLegacy ∨
      getDatetimeFormula (NewChatDB self) v = _datetimeFormula) ∧
    ∀ self2 : String, getDatetimeFormula (NewChatDB self) v = getDatetimeFormula (NewChatDB self2) v := by
  refine ⟨rfl, ?_, fun self2 => rfl⟩
  unfold getDatetimeFormula NewChatDB
  cases v with
  | none => simp
  | some ver =>
    by_cases h : ver.lessThan _modernVersion <;> simp [h]

theorem lookupHandle_eq_none_iff (m : List (Int × String)) (i : Int) :
    lookupHandle m i = none ↔ i ∉ m.map Prod.fst := by
  induction m with
  | nil => simp [lookupHandle]
  | cons kv rest ih =>
    obtain ⟨k, v⟩ := kv
    by_cases h : k = i <;> simp [lookupHandle, h, ih, Ne.symm]

theorem lookupHandle_isSome_iff (m : List (Int × String)) (i : Int) :
    (lookupHandle m i).isSome = true ↔ i ∈ m.map Prod.fst := by
  rw [Option.isSome_iff_ne_none, ne_eq, lookupHandle_eq_none_iff, not_not]

/-- The value `GetHandleMap`'s loop stores for each row. -/
def handleEntry (cmap : ContactMap) (r : HandleRow) : Int × String :=
  (r.rowid, resolveHandle cmap r.id)

theorem getHandleMapLoop_ok_of_nodup (cmap : ContactMap) (rows : List HandleRow) :
    ∀ acc : List (Int × String),
      (acc.map Prod.fst ++ rows.map HandleRow.rowid).Nodup →
      getHandleMapLoop cmap rows acc = .ok (acc ++ rows.map (handleEntry cmap)) := by
  induction rows with
  | nil => intro acc _; simp [getHandleMapLoop]
  | cons r rest ih =>
    intro acc hnd
    have hnotin : r.rowid ∉ acc.map Prod.fst := by
      rw [List.nodup_append] at hnd
      exact fun hmem => hnd.2.2 hmem (by simp)
    have hnone : lookupHandle acc r.rowid = none := (lookupHandle_eq_none_iff acc r.rowid).2 hnotin
    have harr : (acc ++ [handleEntry cmap r]).map Prod.fst ++ rest.map HandleRow.rowid
        = acc.map Prod.fst ++ (r :: rest).map HandleRow.rowid := by
      simp [handleEntry]
    rw [show getHandleMapLoop cmap (r :: rest) acc
        = getHandleMapLoop cmap rest (acc ++ [handleEntry cmap r]) by
      simp [getHandleMapLoop, hnone, handleEntry]]
    rw [ih (acc ++ [handleEntry cmap r]) (harr ▸ hnd)]
    simp

theorem getHandleMapLoop_dup_error (cmap : ContactMap) (rows : List HandleRow) :
    ∀ acc : List (Int × String),
      (acc.map Prod.fst).Nodup →
      ¬ (acc.map Prod.fst ++ rows.map HandleRow.rowid).Nodup →
      ∃ i, getHandleMapLoop cmap rows acc = .error (.duplicateHandleError i) ∧
        2 ≤ (acc.map Prod.fst ++ rows.map HandleRow.rowid).count i := by
  induction rows with
  | nil => intro acc hacc hdup; simp at hdup; exact absurd hacc hdup
  | cons r rest ih =>
    intro acc hacc hdup
    by_cases hmem : r.rowid ∈ acc.map Prod.fst
    · refine ⟨r.rowid, ?_, ?_⟩
      · have : (lookupHandle acc r.rowid).isSome = true :=
          (lookupHandle_isSome_iff acc r.rowid).2 hmem
        simp [getHandleMapLoop, this]
      · rw [List.count_append]
        have h1 : 1 ≤ (acc.map Prod.fst).count r.rowid := List.one_le_count_iff.2 hmem
        have h2 : 1 ≤ ((r :: rest).map HandleRow.rowid).count r.rowid := by
          simp [List.count_cons]
        omega
    · have hnone : lookupHandle acc r.rowid = none := (lookupHandle_eq_none_iff acc r.rowid).2 hmem
      have harr : (acc ++ [handleEntry cmap r]).map Prod.fst ++ rest.map HandleRow.rowid
          = acc.map Prod.fst ++ (r :: rest).map HandleRow.rowid := by
        simp [handleEntry]
      have hacc2 : ((acc ++ [handleEntry cmap r]).map Prod.fst).Nodup := by
        simp only [List.map_append, handleEntry]
        exact List.Nodup.append hacc (by simp) (by simpa [List.disjoint_singleton] using hmem)
      obtain ⟨i, herr, hcnt⟩ := ih (acc ++ [handleEntry cmap r]) hacc2 (by rw [harr]; exact hdup)
      refine ⟨i, ?_, ?_⟩
      · rw [show getHandleMapLoop cmap (r :: rest) acc
            = getHandleMapLoop cmap rest (acc ++ [handleEntry cmap r]) by
          simp [getHandleMapLoop, hnone, handleEntry]]
        exact herr
      · rw [← harr]; exact hcnt

/-- C3: a handle-row sequence with a repeated handle identifier makes
`GetHandleMap` fail with a `duplicateHandleError` naming a duplicated
identifier (and no map is returned — the Go result is the `nil` map beside
the error); with all-distinct identifiers it returns a map whose keys are
exactly the row identifiers, one entry per row. -/
theorem getHandleMap_uniqueness (rows : List HandleRow) (cmap : ContactMap) :
    (¬ (rows.map HandleRow.rowid).Nodup →
      ∃ i, GetHandleMap rows cmap = .error (.duplicateHandleError i) ∧
        2 ≤ (rows.map HandleRow.rowid).count i) ∧
    ((rows.map HandleRow.rowid).Nodup →
      ∃ m, GetHandleMap rows cmap = .ok m ∧ m.map Prod.fst = rows.map HandleRow.rowid) := by
  constructor
  · intro hdup
    obtain ⟨i, herr, hcnt⟩ :=
      getHandleMapLoop_dup_error cmap rows [] (by simp) (by simpa using hdup)
    exact ⟨i, herr, by simpa using hcnt⟩
  · intro hnd
    refine ⟨rows.map (handleEntry cmap), ?_, ?_⟩
    · simpa using getHandleMapLoop_ok_of_nodup cmap rows [] (by simpa using hnd)
    · simp [handleEntry, Function.comp]

/-- C3 witness: a concrete duplicated pair errs naming the identifier; a
concrete distinct pair yields the two-entry map. -/
theorem getHandleMap_uniqueness_witness :
    (∃ i, GetHandleMap [⟨1, "a"⟩, ⟨1, "b"⟩] [] = .error (.duplicateHandleError i) ∧
      2 ≤ (([⟨1, "a"⟩, ⟨1, "b"⟩] : List HandleRow).map HandleRow.rowid).count i) ∧
    (∃ m, GetHandleMap [⟨1, "a"⟩, ⟨2, "b"⟩] [] = .ok m ∧
      m.map Prod.fst = ([⟨1, "a"⟩, ⟨2, "b"⟩] : List HandleRow).map HandleRow.rowid) :=
  ⟨(getHandleMap_uniqueness [⟨1, "a"⟩, ⟨1, "b"⟩] []).1 (by decide),
    (getHandleMap_uniqueness [⟨1, "a"⟩, ⟨2, "b"⟩] []).2 (by decide)⟩

theorem resolveHandle_eq_spec (cmap : ContactMap) (address : String) :
    resolveHandle cmap address = specHandleDisplay cmap address := by
  unfold resolveHandle specHandleDisplay
  cases h : lookupCard cmap address with
  | none => simp
  | some card =>
    cases hn : card.name with
    | none => simp [hn]
    | some n => by_cases hg : n.givenName = "" <;> simp [hn, hg]

theorem getHandleMap_ok_nodup {rows : List HandleRow} {cmap : ContactMap}
    {m : List (Int × String)} (hok : GetHandleMap rows cmap = .ok m) :
    (rows.map HandleRow.rowid).Nodup := by
  by_contra hdup
  obtain ⟨i, herr, -⟩ := getHandleMapLoop_dup_error cmap rows [] (by simp) (by simpa using hdup)
  have hok2 : getHandleMapLoop cmap rows [] = .ok m := hok
  rw [hok2] at herr
  exact Except.noConfusion herr

theorem getHandleMap_ok_eq {rows : List HandleRow} {cmap : ContactMap}
    {m : List (Int × String)} (hok : GetHandleMap rows cmap = .ok m) :
    m = rows.map (handleEntry cmap) := by
  have hnd := getHandleMap_ok_nodup hok
  have h := getHandleMapLoop_ok_of_nodup cmap rows [] (by simpa using hnd)
  have hok2 : getHandleMapLoop cmap rows [] = .ok m := hok
  rw [hok2] at h
  have h2 := Except.ok.inj h
  simpa using h2

theorem lookupHandle_map_entry (cmap : ContactMap) (rows : List HandleRow) (r : HandleRow)
    (hnd : (rows.map HandleRow.rowid).Nodup) (hr : r ∈ rows) :
    lookupHandle (rows.map (handleEntry cmap)) r.rowid = some (resolveHandle cmap r.id) := by
  induction rows with
  | nil => cases hr
  | cons a rest ih =>
    rw [List.map_cons, List.nodup_cons] at hnd
    by_cases h : a.rowid = r.rowid
    · rcases (by simpa using hr : r = a ∨ r ∈ rest) with rfl | hmem
      · simp [handleEntry, lookupHandle]
      · exact absurd (h ▸ List.mem_map_of_mem HandleRow.rowid hmem) hnd.1
    · have hmem : r ∈ rest := by
        rcases (by simpa using hr : r = a ∨ r ∈ rest) with rfl | hm
        · exact absurd rfl h
        · exact hm
      rw [List.map_cons]
      simpa [lookupHandle, handleEntry, h] using ih hnd.2 hmem

/-- C7: in a successfully built handle map, the value for a row's identifier
is the contact's given name when a Contact Entry exists for the raw address
with a non-empty given name, and the raw address verbatim otherwise. -/
theorem getHandleMap_value (rows : List HandleRow) (cmap : ContactMap)
    (m : List (Int × String)) (r : HandleRow)
    (hok : GetHandleMap rows cmap = .ok m) (hr : r ∈ rows) :
    lookupHandle m r.rowid = some (specHandleDisplay cmap r.id) := by
  have hnd := getHandleMap_ok_nodup hok
  have hm : m = rows.map (handleEntry cmap) := getHandleMap_ok_eq hok
  rw [hm, lookupHandle_map_entry cmap rows r hnd hr, resolveHandle_eq_spec]

/-- C7 witness: address `"+15551234567"` with contact given name `"Alice"`
resolves to `"Alice"`. -/
theorem getHandleMap_value_witness :
    lookupHandle [((7 : Int), "Alice")] 7 =
      some (specHandleDisplay [("+15551234567", ⟨some ⟨"Alice"⟩, ""⟩)] "+15551234567") :=
  getHandleMap_value [⟨7, "+15551234567"⟩] [("+15551234567", ⟨some ⟨"Alice"⟩, ""⟩)]
    [(7, "Alice")] ⟨7, "+15551234567"⟩ (by rfl) (by decide)

/-- C9: `GetHandleMap` is deterministic — over an unchanged store (the same
handle rows in the same cursor order) and the same contact map, two calls
yield identical maps. -/
theorem getHandleMap_deterministic (rows1 rows2 : List HandleRow) (cmap1 cmap2 : ContactMap)
    (hrows : rows1 = rows2) (hcmap : cmap1 = cmap2) :
    GetHandleMap rows1 cmap1 = GetHandleMap rows2 cmap2 := by
  rw [hrows, hcmap]

/-- C9 witness. -/
theorem getHandleMap_deterministic_witness :
    GetHandleMap [⟨1, "a"⟩] [] = GetHandleMap [⟨1, "a"⟩] [] :=
  getHandleMap_deterministic [⟨1, "a"⟩] [⟨1, "a"⟩] [] [] rfl rfl

theorem getChatsLoop_eq (cmap : ContactMap) (rows : List ChatRow) :
    ∀ acc : List Chat, getChatsLoop cmap rows acc = acc ++ rows.map (resolveChat cmap) := by
  induction rows with
  | nil => intro acc; simp [getChatsLoop]
  | cons r rest ih => intro acc; rw [getChatsLoop, ih]; simp

theorem resolveChat_eq_spec (cmap : ContactMap) (r : ChatRow) :
    resolveChat cmap r =
      { ID := r.rowid, GUID := r.guid,
        DisplayName := specChatDisplayName cmap (r.display_name.getD "") r.chat_identifier } := by
  unfold resolveChat specChatDisplayName
  by_cases h : r.display_name.getD "" = "" <;> simp [h]

/-- C4: `GetChats` yields one `Chat` per chat row, in row order, whose
display name follows the precedence: the explicit display-name field if
non-empty, else the conversation identifier; then a matching contact's
non-empty preferred formatted name overrides the resolved name. -/
theorem getChats_displayName (rows : List ChatRow) (cmap : ContactMap) :
    GetChats rows cmap = .ok (rows.map (fun r =>
      { ID := r.rowid, GUID := r.guid,
        DisplayName := specChatDisplayName cmap (r.display_name.getD "") r.chat_identifier })) := by
  unfold GetChats
  rw [getChatsLoop_eq, show resolveChat cmap = fun r =>
      ({ ID := r.rowid, GUID := r.guid,
         DisplayName := specChatDisplayName cmap (r.display_name.getD "") r.chat_identifier } : Chat)
    from funext (resolveChat_eq_spec cmap)]
  simp

theorem getMessageIDsLoop_eq (rows : List JoinRow) :
    ∀ acc : List Int, getMessageIDsLoop rows acc = acc ++ rows.map JoinRow.message_id := by
  induction rows with
  | nil => intro acc; simp [getMessageIDsLoop]
  | cons r rest ih => intro acc; rw [getMessageIDsLoop, ih]; simp

/-- C8: `GetMessageIDs` returns exactly the join-table rows for the chat, in
the join table's own order (no re-sorting), and an empty list — not an
error — when no row references the chat. -/
theorem getMessageIDs_order (joinRows : List JoinRow) (chatID : Int) :
    GetMessageIDs joinRows chatID =
      .ok ((joinRows.filter (fun r => r.chat_id == chatID)).map JoinRow.message_id) ∧
    ((∀ r ∈ joinRows, r.chat_id ≠ chatID) → GetMessageIDs joinRows chatID = .ok []) := by
  constructor
  · unfold GetMessageIDs
    rw [getMessageIDsLoop_eq]
    simp
  · intro h
    unfold GetMessageIDs
    have hnil : joinRows.filter (fun r => r.chat_id == chatID) = [] := by
      rw [List.filter_eq_nil_iff]
      intro a ha
      simpa using h a ha
    rw [hnil]
    rfl

/-- C8 witness: a chat with no join rows yields the empty list. -/
theorem getMessageIDs_order_witness :
    GetMessageIDs [⟨1, 10⟩] 2 = .ok [] :=
  (getMessageIDs_order [⟨1, 10⟩] 2).2 (by decide)

/-- C5: when exactly one message row matches, the rendered speaker is the
self-label whenever `is_from_me` is `1` — the output does not depend on the
handle map — and otherwise the handle map's value for the message's handle
identifier: the mapped name when the identifier is present, and an empty
speaker, with the call still succeeding, when it is absent. -/
theorem getMessage_speaker (d : chatDB) (msgRows : List MessageRow)
    (datetime : String → Int → String) (messageID : Int) (handleMap : List (Int × String))
    (v : Option Version) (row : MessageRow)
    (hrow : msgRows.filter (fun r => r.rowid == messageID) = [row]) :
    (row.is_from_me = 1 →
      GetMessage d msgRows datetime messageID handleMap v =
        .ok ("[" ++ datetime (getDatetimeFormula d v) row.date ++ "] " ++ d.selfHandle ++ ": "
          ++ row.text.getD "" ++ "\n")) ∧
    (row.is_from_me ≠ 1 → ∀ name : String, lookupHandle handleMap row.handle_id = some name →
      GetMessage d msgRows datetime messageID handleMap v =
        .ok ("[" ++ datetime (getDatetimeFormula d v) row.date ++ "] " ++ name ++ ": "
          ++ row.text.getD "" ++ "\n")) ∧
    (row.is_from_me ≠ 1 → lookupHandle handleMap row.handle_id = none →
      GetMessage d msgRows datetime messageID handleMap v =
        .ok ("[" ++ datetime (getDatetimeFormula d v) row.date ++ "] " ++ "" ++ ": "
          ++ row.text.getD "" ++ "\n")) := by
  refine ⟨?_, ?_, ?_⟩
  · intro h1
    simp [GetMessage, hrow, h1]
  · intro h1 name h2
    simp [GetMessage, hrow, h2, show (row.is_from_me == 1) = false by simpa using h1]
  · intro h1 h2
    simp [GetMessage, hrow, h2, show (row.is_from_me == 1) = false by simpa using h1]

/-- C5 witness: a self message renders with the self-label even though the
handle map holds another name; a non-self message whose handle is mapped
renders with the mapped name; a non-self message with an unmapped handle
renders with an empty speaker and no error. -/
theorem getMessage_speaker_witness :
    GetMessage (NewChatDB "Me") [⟨5, 1, 3, some "hi", 0⟩] (fun _f _t => "D") 5 [(3, "Bob")] none =
      .ok ("[" ++ "D" ++ "] " ++ "Me" ++ ": " ++ "hi" ++ "\n") ∧
    GetMessage (NewChatDB "Me") [⟨7, 0, 3, some "ok", 0⟩] (fun _f _t => "D") 7 [(3, "Bob")] none =
      .ok ("[" ++ "D" ++ "] " ++ "Bob" ++ ": " ++ "ok" ++ "\n") ∧
    GetMessage (NewChatDB "Me") [⟨6, 0, 9, some "yo", 0⟩] (fun _f _t => "D") 6 [(3, "Bob")] none =
      .ok ("[" ++ "D" ++ "] " ++ "" ++ ": " ++ "yo" ++ "\n") :=
  ⟨(getMessage_speaker (NewChatDB "Me") [⟨5, 1, 3, some "hi", 0⟩] (fun _f _t => "D") 5
      [(3, "Bob")] none ⟨5, 1, 3, some "hi", 0⟩ (by decide)).1 rfl,
    (getMessage_speaker (NewChatDB "Me") [⟨7, 0, 3, some "ok", 0⟩] (fun _f _t => "D") 7
      [(3, "Bob")] none ⟨7, 0, 3, some "ok", 0⟩ (by decide)).2.1 (by decide) "Bob" (by decide),
    (getMessage_speaker (NewChatDB "Me") [⟨6, 0, 9, some "yo", 0⟩] (fun _f _t => "D") 6
      [(3, "Bob")] none ⟨6, 0, 9, some "yo", 0⟩ (by decide)).2.2 (by decide) (by decide)⟩

/-- C6: a message identifier with two or more matching rows makes
`GetMessage` fail with a `duplicateMessageError` naming the identifier (Go
pairs it with the empty string result). -/
theorem getMessage_duplicate (d : chatDB) (msgRows : List MessageRow)
    (datetime : String → Int → String) (messageID : Int) (handleMap : List (Int × String))
    (v : Option Version)
    (h : 2 ≤ (msgRows.filter (fun r => r.rowid == messageID)).length) :
    GetMessage d msgRows datetime messageID handleMap v =
      .error (.duplicateMessageError messageID) := by
  rcases hf : msgRows.filter (fun r => r.rowid == messageID) with _ | ⟨x, _ | ⟨y, rest⟩⟩
  · rw [hf] at h; simp at h
  · rw [hf] at h; simp at h
  · simp [GetMessage, hf]

/-- C6 witness: two rows with identifier 5. -/
theorem getMessage_duplicate_witness :
    GetMessage (NewChatDB "Me") [⟨5, 0, 1, none, 0⟩, ⟨5, 0, 2, none, 0⟩] (fun _f _t => "D") 5
      [] none = .error (.duplicateMessageError 5) :=
  getMessage_duplicate (NewChatDB "Me") [⟨5, 0, 1, none, 0⟩, ⟨5, 0, 2, none, 0⟩]
    (fun _f _t => "D") 5 [] none (by decide)

/-- C1 (amended): a message identifier with zero matching rows makes
`GetMessage` return the empty string result together with the row-read error
annotated with the identifier — `Scan` fails on the cursor closed by the
first unsuccessful `Next` — not a distinct NotFoundError kind, which
chatdb.go never constructs. -/
theorem getMessage_zero_rows (d : chatDB) (msgRows : List MessageRow)
    (datetime : String → Int → String) (messageID : Int) (handleMap : List (Int × String))
    (v : Option Version)
    (h : msgRows.filter (fun r => r.rowid == messageID) = []) :
    GetMessage d msgRows datetime messageID handleMap v = .error (.readError messageID) := by
  simp [GetMessage, h]

/-- C1 witness: identifier 5 matches no row of a non-empty table. -/
theorem getMessage_zero_rows_witness :
    GetMessage (NewChatDB "Me") [⟨1, 0, 0, none, 0⟩] (fun _f _t => "") 5 [] none =
      .error (.readError 5) :=
  getMessage_zero_rows (NewChatDB "Me") [⟨1, 0, 0, none, 0⟩] (fun _f _t => "") 5 [] none
    (by decide)

/-- C1 counterexample: with zero matching rows `GetMessage` returns the
row-read error, and there is no identifier for which it returns a
`notFoundError`. -/
theorem getMessage_zero_rows_counterexample :
    GetMessage (NewChatDB "Me") [] (fun _f _t => "") 5 [] none = .error (.readError 5) ∧
    ¬ ∃ i : Int, GetMessage (NewChatDB "Me") [] (fun _f _t => "") 5 [] none =
      .error (.notFoundError i) := by
  refine ⟨rfl, ?_⟩
  rintro ⟨i, hi⟩
  rw [show GetMessage (NewChatDB "Me") [] (fun _f _t => "") 5 [] none
      = .error (.readError 5) from rfl] at hi
  exact DBError.noConfusion (Except.error.inj hi)

end Chatdb
